import Mathlib

/-
  Verification of the adv7604 video decoder driver
  (drivers/media/i2c/adv7604.c).

  Shallow embedding: machine integers are modelled as Nat with explicit
  masking / mod where overflow matters; i2c bus transfers, register
  readbacks and the external CVT/GTF detection helpers are oracles passed
  in as parameters; fallible functions return an Int errno (0 = success,
  negative = error) alongside their effects.

  Errno values used by the driver (from errno.h): EINVAL 22, E2BIG 7,
  EIO 5, ERANGE 34, ENOLINK 67.
-/

def EINVAL : Int := 22

def E2BIG : Int := 7

def EioCode : Int := 5

def ERANGE : Int := 34

def ENOLINK : Int := 67

/-- ADV7604 system clock frequency (ADV7604_fsc in the source). -/
def ADV7604_fsc : Nat := 28636360

/-- V4L2 polarity flag V4L2_DV_VSYNC_POS_POL. -/
def vsyncPosPol : Nat := 1

/-- V4L2 polarity flag V4L2_DV_HSYNC_POS_POL. -/
def hsyncPosPol : Nat := 2

/-- V4L2 timing-standard bit V4L2_DV_BT_STD_CEA861. -/
def stdCea861 : Nat := 1

/-- V4L2 timing-standard bit V4L2_DV_BT_STD_DMT. -/
def stdDmt : Nat := 2

/-- V4L2 flag V4L2_DV_FL_REDUCED_BLANKING. -/
def flReducedBlanking : Nat := 1

/-- V4L2 flag V4L2_DV_FL_CAN_REDUCE_FPS. -/
def flCanReduceFps : Nat := 2

/-- struct v4l2_dv_timings with its v4l2_bt_timings payload flattened
    (the driver only ever uses type V4L2_DV_BT_656_1120, so the type tag
    is left implicit). pixelclock is a u64 in the source; all other
    numeric fields are u16/u32 bit-fields, all modelled as Nat. -/
structure DvTimings where
  width : Nat
  height : Nat
  interlaced : Bool
  polarities : Nat
  pixelclock : Nat
  hfrontporch : Nat
  hsync : Nat
  hbackporch : Nat
  vfrontporch : Nat
  vsync : Nat
  vbackporch : Nat
  il_vfrontporch : Nat
  il_vsync : Nat
  il_vbackporch : Nat
  standards : Nat
  flags : Nat
  deriving DecidableEq

/-- htotal from the source: width + hfrontporch + hsync + hbackporch. -/
def htotal (t : DvTimings) : Nat :=
  t.width + t.hfrontporch + t.hsync + t.hbackporch

/-- vtotal from the source: height + vfrontporch + vsync + vbackporch. -/
def vtotal (t : DvTimings) : Nat :=
  t.height + t.vfrontporch + t.vsync + t.vbackporch

/-- Modelled from the spec: builder for one progressive entry of the
    known-timings table. The V4L2_DV_BT_CEA_* / V4L2_DV_BT_DMT_* macros
    expanded in adv7604_timings[] are declared in a header outside src/;
    their field values are the standard CEA-861 / VESA DMT timing
    parameters (width, height, polarities, pixel clock, porches, syncs,
    standards tag, flags), reproduced here in macro argument order. -/
def mkDv (wi he pol pclk hfp hs hbp vfp vs vbp std fl : Nat) : DvTimings :=
  { width := wi, height := he, interlaced := false, polarities := pol,
    pixelclock := pclk, hfrontporch := hfp, hsync := hs, hbackporch := hbp,
    vfrontporch := vfp, vsync := vs, vbackporch := vbp,
    il_vfrontporch := 0, il_vsync := 0, il_vbackporch := 0,
    standards := std, flags := fl }

/-- The supported CEA and DMT timings table (adv7604_timings in the
    source, in the same order; the terminating all-zero sentinel is
    represented by the end of the list — the scan loops stop on it).
    Entry values are modelled from the spec as described at mkDv. -/
def adv7604_timings : List DvTimings := [
  mkDv 720 480 0 27000000 16 62 60 9 6 30 stdCea861 flCanReduceFps,
  mkDv 720 576 0 27000000 12 64 68 5 5 39 stdCea861 0,
  mkDv 1280 720 3 59400000 1760 40 220 5 5 20 stdCea861 flCanReduceFps,
  mkDv 1280 720 3 74250000 2420 40 220 5 5 20 stdCea861 0,
  mkDv 1280 720 3 74250000 440 40 220 5 5 20 stdCea861 0,
  mkDv 1280 720 3 74250000 110 40 220 5 5 20 stdCea861 flCanReduceFps,
  mkDv 1920 1080 3 74250000 638 44 148 4 5 36 stdCea861 flCanReduceFps,
  mkDv 1920 1080 3 74250000 528 44 148 4 5 36 stdCea861 0,
  mkDv 1920 1080 3 74250000 88 44 148 4 5 36 stdCea861 flCanReduceFps,
  mkDv 1920 1080 3 148500000 528 44 148 4 5 36 stdCea861 0,
  mkDv 1920 1080 3 148500000 88 44 148 4 5 36 stdCea861 flCanReduceFps,
  mkDv 640 350 2 31500000 32 64 96 32 3 60 stdDmt 0,
  mkDv 640 400 1 31500000 32 64 96 1 3 41 stdDmt 0,
  mkDv 720 400 1 35500000 36 72 108 1 3 42 stdDmt 0,
  mkDv 640 480 0 25175000 16 96 48 10 2 33 stdDmt 0,
  mkDv 640 480 0 31500000 24 40 128 9 3 28 stdDmt 0,
  mkDv 640 480 0 31500000 16 64 120 1 3 16 stdDmt 0,
  mkDv 640 480 0 36000000 56 56 80 1 3 25 stdDmt 0,
  mkDv 800 600 3 36000000 24 72 128 1 2 22 stdDmt 0,
  mkDv 800 600 3 40000000 40 128 88 1 4 23 stdDmt 0,
  mkDv 800 600 3 50000000 56 120 64 37 6 23 stdDmt 0,
  mkDv 800 600 3 49500000 16 80 160 1 3 21 stdDmt 0,
  mkDv 800 600 3 56250000 32 64 152 1 3 27 stdDmt 0,
  mkDv 848 480 3 33750000 16 112 112 6 8 23 stdDmt 0,
  mkDv 1024 768 0 65000000 24 136 160 3 6 29 stdDmt 0,
  mkDv 1024 768 0 75000000 24 136 144 3 6 29 stdDmt 0,
  mkDv 1024 768 3 78750000 16 96 176 1 3 28 stdDmt 0,
  mkDv 1024 768 3 94500000 48 96 208 1 3 36 stdDmt 0,
  mkDv 1152 864 3 108000000 64 128 256 1 3 32 stdDmt 0,
  mkDv 1280 768 2 68250000 48 32 80 3 7 12 stdDmt flReducedBlanking,
  mkDv 1280 768 1 79500000 64 128 192 3 7 20 stdDmt 0,
  mkDv 1280 768 1 102250000 80 128 208 3 7 27 stdDmt 0,
  mkDv 1280 768 1 117500000 80 136 216 3 7 31 stdDmt 0,
  mkDv 1280 800 2 71000000 48 32 80 3 6 14 stdDmt flReducedBlanking,
  mkDv 1280 800 1 83500000 72 128 200 3 6 22 stdDmt 0,
  mkDv 1280 800 1 106500000 80 128 208 3 6 29 stdDmt 0,
  mkDv 1280 800 1 122500000 80 136 216 3 6 38 stdDmt 0,
  mkDv 1280 960 3 108000000 96 112 312 1 3 36 stdDmt 0,
  mkDv 1280 960 3 148500000 64 160 224 1 3 47 stdDmt 0,
  mkDv 1280 1024 3 108000000 48 112 248 1 3 38 stdDmt 0,
  mkDv 1280 1024 3 135000000 16 144 248 1 3 38 stdDmt 0,
  mkDv 1280 1024 3 157500000 64 160 224 1 3 44 stdDmt 0,
  mkDv 1360 768 3 85500000 64 112 256 3 6 18 stdDmt 0,
  mkDv 1400 1050 2 101000000 48 32 80 3 4 23 stdDmt flReducedBlanking,
  mkDv 1400 1050 1 121750000 88 144 232 3 4 32 stdDmt 0,
  mkDv 1400 1050 1 156000000 104 144 248 3 4 42 stdDmt 0,
  mkDv 1400 1050 1 179500000 104 152 256 3 4 48 stdDmt 0,
  mkDv 1440 900 2 88750000 48 32 80 3 6 17 stdDmt flReducedBlanking,
  mkDv 1440 900 1 106500000 80 152 232 3 6 25 stdDmt 0,
  mkDv 1600 1200 3 162000000 64 192 304 1 3 46 stdDmt 0,
  mkDv 1680 1050 2 119000000 48 32 80 3 6 21 stdDmt flReducedBlanking,
  mkDv 1680 1050 1 146250000 104 176 280 3 6 30 stdDmt 0,
  mkDv 1792 1344 1 204750000 128 200 328 1 3 46 stdDmt 0,
  mkDv 1856 1392 1 218250000 96 224 352 1 3 43 stdDmt 0,
  mkDv 1920 1200 2 154000000 48 32 80 3 6 26 stdDmt flReducedBlanking,
  mkDv 1366 768 3 85500000 70 143 213 3 3 24 stdDmt 0,
  mkDv 1920 1080 3 148500000 88 44 148 4 5 36 stdCea861 flCanReduceFps]

/-- struct stdi_readback: burst length, line-count-minus-one, vsync line
    count (u16 fields), sync polarity characters as read_stdi produces
    them (one of '+', '-', 'x'), and the interlaced flag. -/
structure StdiReadback where
  bl : Nat
  lcf : Nat
  lcvs : Nat
  hs_pol : Char
  vs_pol : Char
  interlaced : Bool
  deriving DecidableEq

/-- The scan loop of stdi2dv_timings: the first table entry whose vtotal
    equals lcf + 1, whose vsync equals lcvs, and whose nominal pixel
    clock is within 1 MHz of hfreq * htotal (computed in u32, hence the
    mod 2^32; the Nat subtraction in the lower bound matches the u64
    subtraction of the source because every table pixel clock exceeds
    1 MHz). -/
def findDvTiming (hfreq lcf lcvs : Nat) : List DvTimings → Option DvTimings
  | [] => none
  | t :: rest =>
    if vtotal t ≠ lcf + 1 then findDvTiming hfreq lcf lcvs rest
    else if t.vsync ≠ lcvs then findDvTiming hfreq lcf lcvs rest
    else
      let pix_clk := (hfreq * htotal t) % 4294967296
      if pix_clk < t.pixelclock + 1000000 ∧ pix_clk > t.pixelclock - 1000000
      then some t
      else findDvTiming hfreq lcf lcvs rest

/-- Aspect-ratio fraction (struct v4l2_fract). -/
structure V4l2Fract where
  numerator : Nat
  denominator : Nat
  deriving DecidableEq

/-- Type of the external CVT detector v4l2_detect_cvt:
    arguments are frame height (lcf + 1), hfreq, vsync and the polarity
    flags; it either synthesizes timings or fails. -/
def CvtOracle : Type := Nat → Nat → Nat → Nat → Option DvTimings

/-- Type of the external GTF detector v4l2_detect_gtf: same arguments
    plus the stored aspect ratio. -/
def GtfOracle : Type := Nat → Nat → Nat → Nat → V4l2Fract → Option DvTimings

/-- The polarity flags passed to the CVT/GTF detectors:
    (hs_pol == '+' ? V4L2_DV_HSYNC_POS_POL : 0) |
    (vs_pol == '+' ? V4L2_DV_VSYNC_POS_POL : 0). -/
def stdiPolarities (stdi : StdiReadback) : Nat :=
  (if stdi.hs_pol = '+' then hsyncPosPol else 0) |||
  (if stdi.vs_pol = '+' then vsyncPosPol else 0)

/-- stdi2dv_timings: compute hfreq = (ADV7604_fsc * 8) / bl, scan the
    known-timings table, then fall back to CVT and then GTF synthesis
    (both external to this file, passed as oracles; the stored aspect
    ratio feeds GTF). Returns none where the source returns -1. -/
def stdi2dv_timings (cvt : CvtOracle) (gtf : GtfOracle) (aspect : V4l2Fract)
    (stdi : StdiReadback) : Option DvTimings :=
  let hfreq := (ADV7604_fsc * 8) / stdi.bl
  match findDvTiming hfreq stdi.lcf stdi.lcvs adv7604_timings with
  | some t => some t
  | none =>
    match cvt (stdi.lcf + 1) hfreq stdi.lcvs (stdiPolarities stdi) with
    | some t => some t
    | none => gtf (stdi.lcf + 1) hfreq stdi.lcvs (stdiPolarities stdi) aspect

/-- The synthetic StdiSample of claim C2, built from a table entry:
    lcf is vtotal - 1, lcvs is the entry's vsync, and bl is chosen from
    the entry's horizontal line rate (pixelclock / htotal, in integer
    arithmetic) so that (ADV7604_fsc * 8) / bl reproduces that line
    rate up to integer rounding. -/
def synthStdi (t : DvTimings) : StdiReadback :=
  { bl := (ADV7604_fsc * 8) / (t.pixelclock / htotal t),
    lcf := vtotal t - 1, lcvs := t.vsync,
    hs_pol := 'x', vs_pol := 'x', interlaced := t.interlaced }

/-- The per-entry match predicate of the stdi2dv_timings scan loop,
    used to state which entry is found first. -/
def stdiEntryMatch (hfreq lcf lcvs : Nat) (t : DvTimings) : Prop :=
  vtotal t = lcf + 1 ∧ t.vsync = lcvs ∧
  (hfreq * htotal t) % 4294967296 < t.pixelclock + 1000000 ∧
  (hfreq * htotal t) % 4294967296 > t.pixelclock - 1000000

instance (hfreq lcf lcvs : Nat) (t : DvTimings) :
    Decidable (stdiEntryMatch hfreq lcf lcvs t) := by
  unfold stdiEntryMatch; infer_instance

/-- Modelled from the spec: the match predicate of v4l_match_dv_timings
    (declared outside src/) — an exact match of the measured geometry,
    interlace and polarities against a table entry, with the pixel clock
    allowed to differ by at most pclock_delta. -/
def dvMatch (t1 t2 : DvTimings) (pclock_delta : Nat) : Prop :=
  t1.width = t2.width ∧ t1.height = t2.height ∧
  t1.interlaced = t2.interlaced ∧ t1.polarities = t2.polarities ∧
  t1.hfrontporch = t2.hfrontporch ∧ t1.hsync = t2.hsync ∧
  t1.hbackporch = t2.hbackporch ∧ t1.vfrontporch = t2.vfrontporch ∧
  t1.vsync = t2.vsync ∧ t1.vbackporch = t2.vbackporch ∧
  t2.pixelclock - pclock_delta ≤ t1.pixelclock ∧
  t1.pixelclock ≤ t2.pixelclock + pclock_delta

instance (t1 t2 : DvTimings) (pclock_delta : Nat) :
    Decidable (dvMatch t1 t2 pclock_delta) := by
  unfold dvMatch; infer_instance

/-- Boolean form of dvMatch, as the scan loops use it. -/
def v4l_match_dv_timings (t1 t2 : DvTimings) (pclock_delta : Nat) : Bool :=
  decide (dvMatch t1 t2 pclock_delta)

/-- adv7604_fill_optional_dv_timings_fields: replace the timings by the
    first table entry it matches (tolerance 250 kHz on the digital input,
    1 MHz on analog), or leave them untouched when no entry matches. -/
def adv7604_fill_optional_dv_timings_fields (digital : Bool) (t : DvTimings) :
    DvTimings :=
  match adv7604_timings.find?
      (fun e => v4l_match_dv_timings t e (if digital then 250000 else 1000000)) with
  | some e => e
  | none => t

/-- The two hardware variants (enum adv7604_type). -/
inductive AdvChip
  | adv7604
  | adv7611
  deriving DecidableEq

/-- has_afe of the chip info: only the ADV7604 has an analog front end. -/
def has_afe : AdvChip → Bool
  | .adv7604 => true
  | .adv7611 => false

/-- The mutable driver state the timing/EDID claims depend on
    (struct adv7604_state, reduced to the fields those claims read or
    write). mode is the enum adv7604_mode value: 0 = ADV7604_MODE_COMP,
    1 = ADV7604_MODE_GR, 2 = ADV7604_MODE_HDMI. -/
structure AdvState where
  mode : Nat
  restart_stdi_once : Bool
  aspect_ratio : V4l2Fract
  timings : DvTimings

/-- adv7604_read_hdmi_pixelclock (ADV7604 variant), from the two HDMI
    registers 0x06 and 0x3b. -/
def adv7604_read_hdmi_pixelclock (a b : Nat) : Nat :=
  a * 1000000 + ((b &&& 0x30) >>> 4) * 250000

/-- adv7611_read_hdmi_pixelclock (ADV7611 variant), from the two HDMI
    registers 0x51 and 0x52. -/
def adv7611_read_hdmi_pixelclock (a b : Nat) : Nat :=
  ((a <<< 1) ||| (b >>> 7)) * 1000000 + (b &&& 0x7f) * 1000000 / 128

/-- The chip info's read_hdmi_pixelclock dispatch. -/
def read_hdmi_pixelclock : AdvChip → Nat → Nat → Nat
  | .adv7604 => adv7604_read_hdmi_pixelclock
  | .adv7611 => adv7611_read_hdmi_pixelclock

/-- Raw HDMI-map register readbacks consumed by the digital branch of
    adv7604_query_dv_timings. The rNN fields are the 16-bit values
    assembled by hdmi_read16 before masking; pa and pb feed the
    variant's pixel-clock read; r05 is the polarity/status byte. -/
structure HdmiRegs where
  r07 : Nat
  r09 : Nat
  r0b : Nat
  pa : Nat
  pb : Nat
  r20 : Nat
  r22 : Nat
  r24 : Nat
  r2a : Nat
  r2c : Nat
  r2e : Nat
  r30 : Nat
  r32 : Nat
  r34 : Nat
  r05 : Nat

/-- The v4l2_bt_timings composed by the digital branch of
    adv7604_query_dv_timings from the raw HDMI registers (masks and the
    half-line /2 divisions as in the source; the interlaced additions
    for height, il porches and vbackporch follow the source's
    interlaced-only block). -/
def hdmiBtTimings (chip : AdvChip) (hr : HdmiRegs) (interlaced : Bool) :
    DvTimings :=
  let base : DvTimings :=
    { width := hr.r07 &&& 0xfff, height := hr.r09 &&& 0xfff,
      interlaced := interlaced,
      polarities := (if hr.r05 &&& 0x10 ≠ 0 then vsyncPosPol else 0) |||
                    (if hr.r05 &&& 0x20 ≠ 0 then hsyncPosPol else 0),
      pixelclock := read_hdmi_pixelclock chip hr.pa hr.pb,
      hfrontporch := hr.r20 &&& 0x3ff, hsync := hr.r22 &&& 0x3ff,
      hbackporch := hr.r24 &&& 0x3ff,
      vfrontporch := (hr.r2a &&& 0x1fff) / 2,
      vsync := (hr.r2e &&& 0x1fff) / 2,
      vbackporch := (hr.r32 &&& 0x1fff) / 2,
      il_vfrontporch := 0, il_vsync := 0, il_vbackporch := 0,
      standards := 0, flags := 0 }
  if interlaced then
    { base with
      height := base.height + (hr.r0b &&& 0xfff),
      il_vfrontporch := (hr.r2c &&& 0x1fff) / 2,
      il_vsync := (hr.r30 &&& 0x1fff) / 2,
      vbackporch := (hr.r34 &&& 0x1fff) / 2 }
  else base

/-- u16 addition on the lcvs field (the source mutates stdi.lcvs, a u16,
    in place: += 1, then -= 2 which is += 0xfffe mod 2^16). -/
def lcvsAdd (stdi : StdiReadback) (k : Nat) : StdiReadback :=
  { stdi with lcvs := (stdi.lcvs + k) % 65536 }

/-- The STDI-block restart sequence written to CP register 0x86 on the
    first end-to-end analog resolution failure: enter one-shot mode,
    trigger the restart, return to continuous mode (each write is
    cp_write_and_or(0x86, 0xf9, value)). -/
def restartSeq : List (Nat × Nat × Nat) :=
  [(0x86, 0xf9, 0x00), (0x86, 0xf9, 0x04), (0x86, 0xf9, 0x02)]

/-- Environment of one adv7604_query_dv_timings call: the two no_signal
    register checks, the read_stdi outcome (none = STDI/SSPD not locked
    or an invalid sample), the raw HDMI registers, and the external
    CVT/GTF detectors. -/
structure QueryEnv where
  noSignal1 : Bool
  stdiRead : Option StdiReadback
  hdmi : HdmiRegs
  cvt : CvtOracle
  gtf : GtfOracle
  noSignal2 : Bool

/-- Everything adv7604_query_dv_timings does up to the found: label:
    either an early error (errno, new restart_stdi_once flag, CP 0x86
    writes issued) or the resolved timings together with the new
    restart_stdi_once flag. On the analog path a success of the first
    or second stdi2dv_timings attempt reaches found: through a goto that
    jumps over the restart_stdi_once = true statement, so the flag is
    only re-armed when the third (lcvs - 1) attempt is the one that
    succeeds. -/
def queryResolve (chip : AdvChip) (st : AdvState) (env : QueryEnv) :
    Except (Int × Bool × List (Nat × Nat × Nat)) (DvTimings × Bool) :=
  if env.noSignal1 then .error (-ENOLINK, st.restart_stdi_once, [])
  else
    match env.stdiRead with
    | none => .error (-ENOLINK, st.restart_stdi_once, [])
    | some stdi =>
      if st.mode = 2 then
        .ok (adv7604_fill_optional_dv_timings_fields true
              (hdmiBtTimings chip env.hdmi stdi.interlaced),
             st.restart_stdi_once)
      else
        match stdi2dv_timings env.cvt env.gtf st.aspect_ratio stdi with
        | some t => .ok (t, st.restart_stdi_once)
        | none =>
          match stdi2dv_timings env.cvt env.gtf st.aspect_ratio
              (lcvsAdd stdi 1) with
          | some t => .ok (t, st.restart_stdi_once)
          | none =>
            match stdi2dv_timings env.cvt env.gtf st.aspect_ratio
                (lcvsAdd (lcvsAdd stdi 1) 65534) with
            | some t => .ok (t, true)
            | none =>
              if st.restart_stdi_once then .error (-ENOLINK, false, restartSeq)
              else .error (-ERANGE, st.restart_stdi_once, [])

/-- Result of one adv7604_query_dv_timings call: the errno-or-timings
    outcome, the updated restart_stdi_once flag, and the writes issued
    to CP register 0x86. -/
structure QueryOut where
  result : Except Int DvTimings
  restart_stdi_once : Bool
  cpWrites : List (Nat × Nat × Nat)

/-- adv7604_query_dv_timings: resolve (queryResolve), re-check the
    signal, then validate the resolved pixel clock against the 170 MHz
    analog / 225 MHz digital ceiling. -/
def adv7604_query_dv_timings (chip : AdvChip) (st : AdvState)
    (env : QueryEnv) : QueryOut :=
  match queryResolve chip st env with
  | .error (e, rst, wr) =>
    { result := .error e, restart_stdi_once := rst, cpWrites := wr }
  | .ok (t, rst) =>
    if env.noSignal2 then
      { result := .error (-ENOLINK), restart_stdi_once := rst, cpWrites := [] }
    else if (¬st.mode = 2 ∧ t.pixelclock > 170000000) ∨
            (st.mode = 2 ∧ t.pixelclock > 225000000) then
      { result := .error (-ERANGE), restart_stdi_once := rst, cpWrites := [] }
    else
      { result := .ok t, restart_stdi_once := rst, cpWrites := [] }

/-- adv7604_probe initializes restart_stdi_once to true. -/
def adv7604_probe_restart_stdi_once : Bool := true

/-- adv7604_s_dv_timings: reject a pixel clock above the variant limit
    with -ERANGE before anything is stored; otherwise enrich the timings
    (adv7604_fill_optional_dv_timings_fields), store them, and return 0
    (the register programming done by configure_predefined /
    configure_custom_video_timings does not affect the return value and
    is elided here). -/
def adv7604_s_dv_timings (st : AdvState) (t : DvTimings) : Int × AdvState :=
  if (¬st.mode = 2 ∧ t.pixelclock > 170000000) ∨
     (st.mode = 2 ∧ t.pixelclock > 225000000) then
    (-ERANGE, st)
  else
    (0, { st with
          timings := adv7604_fill_optional_dv_timings_fields (st.mode = 2) t })

/-- The EDID-related part of struct adv7604_state: the stored blob
    (byte-addressed, positions 0..255 meaningful), its block count, and
    the aspect-ratio hint. -/
structure EdidState where
  edid_blocks : Nat
  edid : Nat → Nat
  aspect_ratio : V4l2Fract

/-- struct v4l2_subdev_edid as adv7604_get_edid / adv7604_set_edid see
    it: pad, start_block, blocks and the caller's byte buffer (none
    models a NULL edid pointer). -/
structure EdidRequest where
  pad : Nat
  start_block : Nat
  blocks : Nat
  buf : Option (Nat → Nat)

/-- adv7604_get_edid: validate pad / blocks / start_block / buffer,
    clamp the block count to what is stored, and copy the requested
    blocks (128 bytes each, at their original offsets) into the caller's
    buffer. Returns (errno, receiver state, updated request); the
    receiver state is returned unchanged — the source never writes to
    struct adv7604_state here. -/
def adv7604_get_edid (st : EdidState) (re : EdidRequest) :
    Int × EdidState × EdidRequest :=
  if re.pad ≠ 0 then (-EINVAL, st, re)
  else if re.blocks = 0 then (-EINVAL, st, re)
  else if re.start_block ≥ st.edid_blocks then (-EINVAL, st, re)
  else
    let blocks' := if re.start_block + re.blocks > st.edid_blocks
                   then st.edid_blocks - re.start_block else re.blocks
    match re.buf with
    | none => (-EINVAL, st, { re with blocks := blocks' })
    | some b =>
      (0, st,
       { re with
         blocks := blocks',
         buf := some (fun k =>
           if re.start_block * 128 ≤ k ∧ k < re.start_block * 128 + blocks' * 128
           then st.edid k else b k) })

/-- Environment of the EDID-programming path: the result of each i2c
    block-chunk write (indexed by byte offset), the EDID status register
    readback at each 1 ms poll iteration, and the external
    v4l2_calc_aspect_ratio helper (declared outside src/). -/
structure EdidEnv where
  chunk : Nat → Int
  status : Nat → Nat
  calcAspect : Nat → Nat → V4l2Fract

/-- The chunked EDID RAM write loop of edid_write_block:
    for (i = 0; !err && i < len; i += I2C_SMBUS_BLOCK_MAX)
    with I2C_SMBUS_BLOCK_MAX = 32; returns the final err. -/
def edidChunkLoop (chunk : Nat → Int) (len : Nat) : Int :=
  (List.range ((len + 31) / 32)).foldl
    (fun err k => if err = 0 then chunk (32 * k) else err) 0

/-- edid_write_block: deassert hotplug, disable DDC access, write the
    blob in 32-byte chunks (abort on the first chunk error), re-enable
    internal EDID access, then poll the status register's valid bit for
    at most 1000 iterations of 1 ms; on timeout return -EIO, on success
    schedule the deferred hotplug assertion 100 ms later (HZ / 10
    jiffies). Returns (errno, scheduled hotplug delay in ms). -/
def edid_write_block (env : EdidEnv) (len : Nat) : Int × Option Nat :=
  let err := edidChunkLoop env.chunk len
  if err ≠ 0 then (err, none)
  else
    match (List.range 1000).find? (fun i => env.status i % 2 = 1) with
    | none => (-EioCode, none)
    | some _ => (0, some 100)

/-- adv7604_set_edid: pad and start_block must be 0; blocks == 0 clears
    (hotplug deasserted, DDC access disabled, stored block count zeroed,
    aspect ratio reset to 16:9) and returns 0; blocks > 2 fails with
    -E2BIG; a NULL buffer fails with -EINVAL; otherwise the blob and the
    aspect-ratio hint are stored and the chip EDID RAM is programmed via
    edid_write_block. Returns (errno, new state, whether the chip EDID
    RAM write path was entered). -/
def adv7604_set_edid (env : EdidEnv) (st : EdidState) (re : EdidRequest) :
    Int × EdidState × Bool :=
  if re.pad ≠ 0 then (-EINVAL, st, false)
  else if re.start_block ≠ 0 then (-EINVAL, st, false)
  else if re.blocks = 0 then
    (0, { st with
          edid_blocks := 0,
          aspect_ratio := { numerator := 16, denominator := 9 } }, false)
  else if re.blocks > 2 then (-E2BIG, st, false)
  else
    match re.buf with
    | none => (-EINVAL, st, false)
    | some b =>
      let st' : EdidState :=
        { st with
          edid := fun k => if k < 128 * re.blocks then b k else st.edid k,
          edid_blocks := re.blocks,
          aspect_ratio := env.calcAspect (b 0x15) (b 0x16) }
      ((edid_write_block env (128 * re.blocks)).1, st', true)

/-- The 13 logical register pages, each routed to a distinct physical
    i2c sub-device client (the ADV7604_PAGE_* enumeration: IO is page 0
    through VDP, page 12). -/
inductive AdvPage
  | io
  | avlink
  | cec
  | infoframe
  | esdp
  | dpp
  | afe
  | rep
  | edid
  | hdmi
  | test
  | cp
  | vdp
  deriving DecidableEq

/-- The switch of adv7604_read_reg / adv7604_write_reg: which sub-device
    client serves each page number. -/
def pageClient : Nat → Option AdvPage
  | 0 => some .io
  | 1 => some .avlink
  | 2 => some .cec
  | 3 => some .infoframe
  | 4 => some .esdp
  | 5 => some .dpp
  | 6 => some .afe
  | 7 => some .rep
  | 8 => some .edid
  | 9 => some .hdmi
  | 10 => some .test
  | 11 => some .cp
  | 12 => some .vdp
  | _ => none

/-- page_mask of the chip info: the ADV7604 exposes all 13 pages, the
    ADV7611 only IO, CEC, INFOFRAME, AFE, REP, EDID, HDMI and CP. -/
def page_mask : AdvChip → Nat
  | .adv7604 => 0x1fff
  | .adv7611 =>
    (1 <<< 0) ||| (1 <<< 2) ||| (1 <<< 3) ||| (1 <<< 6) ||| (1 <<< 7) |||
    (1 <<< 8) ||| (1 <<< 9) ||| (1 <<< 11)

/-- adv7604_read_reg: page = reg >> 8; fail with -EINVAL when
    BIT(page) is absent from the active profile's page mask (no bus
    access is performed — an error result carries no routed access),
    else route the read of offset reg & 0xff to the page's client. -/
def adv7604_read_reg (chip : AdvChip) (reg : Nat) :
    Except Int (AdvPage × Nat) :=
  let page := reg >>> 8
  if ¬(page_mask chip).testBit page then .error (-EINVAL)
  else
    match pageClient page with
    | some c => .ok (c, reg &&& 0xff)
    | none => .error (-EINVAL)

/-- adv7604_write_reg: same page routing as adv7604_read_reg; a
    successful result is the routed write (client, offset, value). -/
def adv7604_write_reg (chip : AdvChip) (reg : Nat) (val : Nat) :
    Except Int (AdvPage × Nat × Nat) :=
  let page := reg >>> 8
  if ¬(page_mask chip).testBit page then .error (-EINVAL)
  else
    match pageClient page with
    | some c => .ok (c, reg &&& 0xff, val)
    | none => .error (-EINVAL)

/-- The three ordered phases of adv7604_s_routing after the mode is
    stored: disable_input, select_input (which applies the variant's
    recommended-settings preset sequence for the selected path), and
    enable_input. -/
inductive RouteStep
  | disable
  | select (mode : Nat)
  | enable
  deriving DecidableEq

/-- adv7604_s_routing: on a chip without an AFE any input other than
    ADV7604_MODE_HDMI (= 2) is rejected with -EINVAL before the stored
    mode or any register is touched; otherwise the input becomes the
    stored mode and disable_input, select_input, enable_input run in
    that order. Returns (errno, new state, steps performed). -/
def adv7604_s_routing (chip : AdvChip) (st : AdvState) (input : Nat) :
    Int × AdvState × List RouteStep :=
  if has_afe chip = false ∧ input ≠ 2 then (-EINVAL, st, [])
  else
    (0, { st with mode := input },
     [RouteStep.disable, RouteStep.select input, RouteStep.enable])

/-- adv_smbus_write_byte_data: the i2c transfer is attempted up to 3
    times, stopping at the first success; the bus oracle gives the
    result of each successive i2c_smbus_xfer call. Returns (the err the
    function returns, the number of xfer attempts made). -/
def adv_smbus_write_byte_data (bus : Nat → Int) : Int × Nat :=
  if bus 0 = 0 then (bus 0, 1)
  else if bus 1 = 0 then (bus 1, 2)
  else (bus 2, 3)

/-- adv_smbus_read_byte_data_check: a single i2c_smbus_xfer; on success
    the read byte is returned, on failure -EIO — there is no retry.
    Returns (result, number of xfer attempts made). -/
def adv_smbus_read_byte_data_check (xferErr : Int) (byte : Nat) : Int × Nat :=
  (if xferErr = 0 then (byte : Int) else -EioCode, 1)

/-- adv_smbus_write_i2c_block_data: the length is clamped to
    I2C_SMBUS_BLOCK_MAX (32) and a single i2c_smbus_xfer is issued —
    there is no retry loop here. Returns (the xfer result surfaced to
    the caller, the number of xfer attempts made, the clamped length). -/
def adv_smbus_write_i2c_block_data (bus : Nat → Int) (len : Nat) :
    Int × Nat × Nat :=
  (bus 0, 1, if len > 32 then 32 else len)

/-- A CVT detector that always fails (concrete-evaluation fixture). -/
def cvtNone : CvtOracle := fun _ _ _ _ => none

/-- A GTF detector that always fails (concrete-evaluation fixture). -/
def gtfNone : GtfOracle := fun _ _ _ _ _ => none

/-- The driver's fallback 16:9 aspect ratio. -/
def aspect169 : V4l2Fract := { numerator := 16, denominator := 9 }

/-- When the table scan finds an entry, stdi2dv_timings returns it and
    the CVT/GTF detectors are never consulted. -/
theorem stdi2dv_timings_scan (cvt : CvtOracle) (gtf : GtfOracle)
    (aspect : V4l2Fract) (stdi : StdiReadback) (t : DvTimings)
    (hfind : findDvTiming ((ADV7604_fsc * 8) / stdi.bl) stdi.lcf stdi.lcvs
      adv7604_timings = some t) :
    stdi2dv_timings cvt gtf aspect stdi = some t := by
  simp [stdi2dv_timings, hfind]

/-- For every table entry whose synthetic sample is matched by no
    earlier entry, the scan finds exactly that entry. -/
theorem c2_scan_first : ∀ i : Fin adv7604_timings.length,
    (∀ j : Fin adv7604_timings.length, j < i →
      ¬ stdiEntryMatch ((ADV7604_fsc * 8) / (synthStdi (adv7604_timings.get i)).bl)
          (synthStdi (adv7604_timings.get i)).lcf
          (synthStdi (adv7604_timings.get i)).lcvs (adv7604_timings.get j)) →
    findDvTiming ((ADV7604_fsc * 8) / (synthStdi (adv7604_timings.get i)).bl)
      (synthStdi (adv7604_timings.get i)).lcf
      (synthStdi (adv7604_timings.get i)).lcvs adv7604_timings =
      some (adv7604_timings.get i) := by decide

/-- C2 (amended): for every entry T of the known-timings table, resolving
    the synthetic StdiSample built from T returns exactly T — metadata
    included and independently of the CVT/GTF detectors — provided no
    earlier entry of the table matches that synthetic sample (same total
    line count and vsync, pixel clock within the 1 MHz tolerance). -/
theorem c2_roundtrip_first_match (cvt : CvtOracle) (gtf : GtfOracle)
    (aspect : V4l2Fract) (i : Fin adv7604_timings.length)
    (hfirst : ∀ j : Fin adv7604_timings.length, j < i →
      ¬ stdiEntryMatch ((ADV7604_fsc * 8) / (synthStdi (adv7604_timings.get i)).bl)
          (synthStdi (adv7604_timings.get i)).lcf
          (synthStdi (adv7604_timings.get i)).lcvs (adv7604_timings.get j)) :
    stdi2dv_timings cvt gtf aspect (synthStdi (adv7604_timings.get i)) =
      some (adv7604_timings.get i) :=
  stdi2dv_timings_scan cvt gtf aspect _ _ (c2_scan_first i hfirst)

/-- C2 witness: the round trip at the first table entry (720x480p59.94). -/
theorem c2_roundtrip_first_match_witness :
    stdi2dv_timings cvtNone gtfNone aspect169
        (synthStdi (adv7604_timings.get ⟨0, by decide⟩)) =
      some (adv7604_timings.get ⟨0, by decide⟩) :=
  c2_roundtrip_first_match cvtNone gtfNone aspect169 ⟨0, by decide⟩ (by decide)

/-- C2 counterexample: the table entry 640x400P85 (index 12) does not
    round-trip — its synthetic sample is captured by the earlier
    640x350P85 entry (index 11), which has the same total line count
    (445), the same vsync (3), the same htotal and the same nominal
    pixel clock, so the scan returns the 640x350 entry instead of T. -/
theorem c2_roundtrip_counterexample :
    adv7604_timings.get? 12 = some (mkDv 640 400 1 31500000 32 64 96 1 3 41 stdDmt 0) ∧
    adv7604_timings.get? 11 = some (mkDv 640 350 2 31500000 32 64 96 32 3 60 stdDmt 0) ∧
    stdi2dv_timings cvtNone gtfNone aspect169
        (synthStdi (mkDv 640 400 1 31500000 32 64 96 1 3 41 stdDmt 0)) =
      some (mkDv 640 350 2 31500000 32 64 96 32 3 60 stdDmt 0) ∧
    mkDv 640 350 2 31500000 32 64 96 32 3 60 stdDmt 0 ≠
      mkDv 640 400 1 31500000 32 64 96 1 3 41 stdDmt 0 := by decide

/-- C7 (amended): at the register-access layer a byte-data write is
    attempted up to 3 times, stopping at the first success, and only
    then is the bus error surfaced; reads are issued exactly once with
    no retry; the i2c block transfers used for EDID programming are
    also issued exactly once with no retry. -/
theorem c7_bus_retry (bus : Nat → Int) :
    (bus 0 = 0 → adv_smbus_write_byte_data bus = (0, 1)) ∧
    (bus 0 ≠ 0 → bus 1 = 0 → adv_smbus_write_byte_data bus = (0, 2)) ∧
    (bus 0 ≠ 0 → bus 1 ≠ 0 → adv_smbus_write_byte_data bus = (bus 2, 3)) ∧
    (∀ xferErr byte, (adv_smbus_read_byte_data_check xferErr byte).2 = 1) ∧
    (∀ len, (adv_smbus_write_i2c_block_data bus len).2.1 = 1) := by
  refine ⟨?_, ?_, ?_, ?_, ?_⟩
  · intro h0
    simp [adv_smbus_write_byte_data, h0]
  · intro h0 h1
    simp [adv_smbus_write_byte_data, h0, h1]
  · intro h0 h1
    simp [adv_smbus_write_byte_data, h0, h1]
  · intro xferErr byte
    simp [adv_smbus_read_byte_data_check]
  · intro len
    simp [adv_smbus_write_i2c_block_data]

/-- C7 witness: a transiently failing bus (first transfer fails, the
    rest succeed) makes the byte write succeed on its second attempt. -/
theorem c7_bus_retry_witness :
    adv_smbus_write_byte_data (fun i => if i = 0 then -EioCode else 0) = (0, 2) :=
  (c7_bus_retry (fun i => if i = 0 then -EioCode else 0)).2.1
    (by decide) (by decide)

/-- C7 counterexample: on the same transiently failing bus, the block
    transfer used for EDID programming surfaces the error of its single
    attempt — it is not retried, although a retry would have succeeded
    (the second transfer returns 0). -/
theorem c7_block_write_counterexample :
    adv_smbus_write_i2c_block_data (fun i => if i = 0 then -EioCode else 0) 128 =
      (-EioCode, 1, 32) ∧
    (fun (i : Nat) => if i = 0 then -EioCode else (0 : Int)) 1 = 0 := by decide

/-- C10: on the chip profile without an analog front end (ADV7611) any
    routing other than to the HDMI mode (2) fails with -EINVAL before
    the stored mode or any register is modified (no route step runs);
    on the AFE-equipped ADV7604 every requested mode is stored and
    disable_input, select_input (variant preset sequence), enable_input
    run in that order. -/
theorem c10_routing_guard (st : AdvState) (input : Nat) :
    (input ≠ 2 →
      adv7604_s_routing AdvChip.adv7611 st input = (-EINVAL, st, [])) ∧
    (adv7604_s_routing AdvChip.adv7604 st input =
      (0, { st with mode := input },
       [RouteStep.disable, RouteStep.select input, RouteStep.enable])) := by
  constructor
  · intro hin
    simp [adv7604_s_routing, has_afe, hin]
  · simp [adv7604_s_routing, has_afe]

/-- C10 witness: routing the ADV7611 to composite (0) fails; routing the
    ADV7604 to composite succeeds and performs the three steps. -/
theorem c10_routing_guard_witness :
    adv7604_s_routing AdvChip.adv7611
        { mode := 2, restart_stdi_once := true, aspect_ratio := aspect169,
          timings := mkDv 0 0 0 0 0 0 0 0 0 0 0 0 } 0 =
      (-EINVAL,
       { mode := 2, restart_stdi_once := true, aspect_ratio := aspect169,
         timings := mkDv 0 0 0 0 0 0 0 0 0 0 0 0 }, []) :=
  (c10_routing_guard
    { mode := 2, restart_stdi_once := true, aspect_ratio := aspect169,
      timings := mkDv 0 0 0 0 0 0 0 0 0 0 0 0 } 0).1 (by decide)

/-- Every page present in a variant's page mask is below 13, so the
    routing switch always resolves it to a client. -/
theorem pageClient_isSome_of_lt : ∀ p : Nat, p < 13 → (pageClient p).isSome := by
  decide

/-- Both page masks fit in 13 bits. -/
theorem page_mask_lt (chip : AdvChip) : page_mask chip < 8192 := by
  cases chip <;> decide

/-- A set bit of a variant's page mask is below bit 13. -/
theorem page_lt_of_testBit (chip : AdvChip) (p : Nat)
    (h : (page_mask chip).testBit p) : p < 13 := by
  by_contra hge
  have h13 : (13 : Nat) ≤ p := Nat.le_of_not_lt hge
  have hlt : page_mask chip < 2 ^ p :=
    lt_of_lt_of_le (page_mask_lt chip)
      (le_trans (by norm_num) (Nat.pow_le_pow_right (by norm_num) h13))
  rw [Nat.testBit_eq_false_of_lt hlt] at h
  exact Bool.false_ne_true h

/-- C8: for every register address whose page (the high bits of the
    address) is absent from the active chip profile's page mask, both
    the generic read and the generic write return -EINVAL with no bus
    access (an error carries no routed access), on both hardware
    variants; for every address whose page is present, the operation is
    routed to that page's sub-device client at offset reg & 0xff. -/
theorem c8_page_routing (chip : AdvChip) (reg val : Nat) :
    (¬(page_mask chip).testBit (reg >>> 8) →
      adv7604_read_reg chip reg = .error (-EINVAL) ∧
      adv7604_write_reg chip reg val = .error (-EINVAL)) ∧
    ((page_mask chip).testBit (reg >>> 8) →
      ∃ c, pageClient (reg >>> 8) = some c ∧
        adv7604_read_reg chip reg = .ok (c, reg &&& 0xff) ∧
        adv7604_write_reg chip reg val = .ok (c, reg &&& 0xff, val)) := by
  constructor
  · intro hbit
    constructor
    · simp [adv7604_read_reg, hbit]
    · simp [adv7604_write_reg, hbit]
  · intro hbit
    have hlt : reg >>> 8 < 13 := page_lt_of_testBit chip (reg >>> 8) hbit
    obtain ⟨c, hc⟩ :=
      Option.isSome_iff_exists.mp (pageClient_isSome_of_lt (reg >>> 8) hlt)
    refine ⟨c, hc, ?_, ?_⟩
    · simp [adv7604_read_reg, hbit, hc]
    · simp [adv7604_write_reg, hbit, hc]

/-- C8 witness: the AVLINK page (1) is absent from the ADV7611's mask,
    so address 0x1ab fails closed there; the CP page (11) is present on
    the ADV7604, so address 0xb86 routes to the CP client at offset
    0x86. -/
theorem c8_page_routing_witness :
    adv7604_read_reg AdvChip.adv7611 0x1ab = .error (-EINVAL) ∧
    adv7604_write_reg AdvChip.adv7604 0xb86 0x04 =
      .ok (AdvPage.cp, 0x86, 0x04) := by
  constructor
  · exact ((c8_page_routing AdvChip.adv7611 0x1ab 0).1 (by decide)).1
  · obtain ⟨c, hc, hrd, hwr⟩ :=
      (c8_page_routing AdvChip.adv7604 0xb86 0x04).2 (by decide)
    have hcp : c = AdvPage.cp := by
      have : pageClient 11 = some c := hc
      simpa [pageClient] using this.symm
    rw [hwr, hcp]
    congr 1

/-- Concrete receiver EDID state for witnesses: two stored blocks. -/
def edidStateW : EdidState :=
  { edid_blocks := 2, edid := fun k => k % 256, aspect_ratio := aspect169 }

/-- Concrete EDID environment for witnesses: chunk writes succeed, the
    valid bit never rises. -/
def edidEnvW : EdidEnv :=
  { chunk := fun _ => 0, status := fun _ => 0,
    calcAspect := fun _ _ => aspect169 }

/-- C3 (amended): on the supported pad (0) with start block 0, a
    set_edid request with more than 2 blocks fails with -E2BIG and
    leaves the state untouched without programming the chip's EDID RAM;
    a request with exactly 0 blocks does not fail — it performs the
    clear (stored block count zeroed, aspect ratio reset to 16:9) and
    returns 0, also without programming the EDID RAM. -/
theorem c3_set_edid_limits (env : EdidEnv) (st : EdidState) (re : EdidRequest)
    (hpad : re.pad = 0) (hstart : re.start_block = 0) :
    (re.blocks > 2 → adv7604_set_edid env st re = (-E2BIG, st, false)) ∧
    (re.blocks = 0 → adv7604_set_edid env st re =
      (0, { st with
            edid_blocks := 0,
            aspect_ratio := { numerator := 16, denominator := 9 } }, false)) := by
  constructor
  · intro hgt
    have hne : re.blocks ≠ 0 := by omega
    simp [adv7604_set_edid, hpad, hstart, hne, hgt]
  · intro h0
    simp [adv7604_set_edid, hpad, hstart, h0]

/-- C3 witness: a 3-block request fails with -E2BIG. -/
theorem c3_set_edid_limits_witness :
    adv7604_set_edid edidEnvW edidStateW
      { pad := 0, start_block := 0, blocks := 3, buf := none } =
      (-E2BIG, edidStateW, false) :=
  (c3_set_edid_limits edidEnvW edidStateW
    { pad := 0, start_block := 0, blocks := 3, buf := none } rfl rfl).1
    (by decide)

/-- C3 counterexample: a 0-block request on the supported pad returns 0
    (success, acting as the clear operation) — not an invalid-request
    error as the claim states. -/
theorem c3_zero_blocks_counterexample :
    (adv7604_set_edid edidEnvW edidStateW
      { pad := 0, start_block := 0, blocks := 0, buf := none }).1 = 0 ∧
    (0 : Int) ≠ -EINVAL := ⟨rfl, by decide⟩

/-- C9: get_edid fails with -EINVAL when the pad is nonzero, the
    requested block count is 0, the start block is at or beyond the
    stored block count (so every read fails when nothing is stored), or
    the buffer is NULL; otherwise it succeeds, clamps the count to
    stored-blocks minus start, copies exactly that many 128-byte blocks
    of the stored blob at their original offsets, and leaves the stored
    receiver state unchanged. -/
theorem c9_get_edid_contract (st : EdidState) (re : EdidRequest) :
    (re.pad ≠ 0 ∨ re.blocks = 0 ∨ re.start_block ≥ st.edid_blocks ∨
        re.buf = none →
      (adv7604_get_edid st re).1 = -EINVAL) ∧
    (∀ b, re.pad = 0 → re.blocks ≠ 0 → re.start_block < st.edid_blocks →
      re.buf = some b →
      adv7604_get_edid st re =
        (0, st,
         { re with
           blocks := min re.blocks (st.edid_blocks - re.start_block),
           buf := some (fun k =>
             if re.start_block * 128 ≤ k ∧
                k < re.start_block * 128 +
                  min re.blocks (st.edid_blocks - re.start_block) * 128
             then st.edid k else b k) })) := by
  constructor
  · intro h
    unfold adv7604_get_edid
    split_ifs with h1 h2 h3 h4
    · rfl
    · rfl
    · rfl
    all_goals
      have hbuf : re.buf = none := by
        rcases h with h | h | h | h
        · exact absurd h h1
        · exact absurd h h2
        · exact absurd h h3
        · exact h
      rw [hbuf]
  · intro b hpad hbl hsb hbuf
    have hsb' : ¬re.start_block ≥ st.edid_blocks := Nat.not_le.mpr hsb
    have hmin : (if re.start_block + re.blocks > st.edid_blocks
                 then st.edid_blocks - re.start_block else re.blocks) =
        min re.blocks (st.edid_blocks - re.start_block) := by
      split <;> omega
    unfold adv7604_get_edid
    rw [if_neg (by simp [hpad]), if_neg (by simp [hbl]), if_neg hsb', hmin,
      hbuf]

/-- C6: when the chunked EDID RAM writes succeed, the EDID-valid status
    bit decides the outcome — if it is not observed in any of the 1000
    one-millisecond poll iterations the operation returns the hard I/O
    failure -EIO and schedules no deferred hotplug assertion; if any
    iteration inside the bound observes the bit, the operation returns 0
    and schedules the hotplug assertion 100 ms later. -/
theorem c6_edid_poll_bound (env : EdidEnv) (len : Nat)
    (hwr : edidChunkLoop env.chunk len = 0) :
    ((∀ i, i < 1000 → env.status i % 2 ≠ 1) →
      edid_write_block env len = (-EioCode, none)) ∧
    (∀ i, i < 1000 → env.status i % 2 = 1 →
      edid_write_block env len = (0, some 100)) := by
  constructor
  · intro hall
    have hfind : (List.range 1000).find?
        (fun i => decide (env.status i % 2 = 1)) = none := by
      apply List.find?_eq_none.mpr
      intro x hx
      simpa using hall x (List.mem_range.mp hx)
    simp [edid_write_block, hwr, hfind]
  · intro i hi hbit
    cases hf : (List.range 1000).find?
        (fun i => decide (env.status i % 2 = 1)) with
    | none =>
      have := List.find?_eq_none.mp hf i (List.mem_range.mpr hi)
      simp [hbit] at this
    | some j =>
      simp [edid_write_block, hwr, hf]

set_option maxRecDepth 8192 in
/-- C6 witness: with a valid bit that never rises, programming two
    blocks times out with -EIO and no hotplug is scheduled. -/
theorem c6_edid_poll_bound_witness :
    edid_write_block edidEnvW 256 = (-EioCode, none) :=
  (c6_edid_poll_bound edidEnvW 256 (by decide)).1 (by decide)

/-- C4 (amended): the enrichment step never changes the measured
    geometry — width, height, porches, sync widths, interlace and
    polarities are unchanged whether or not a table entry matches — but
    the pixel clock is not always preserved: on a match it is replaced
    by the matched entry's nominal value, which may differ from the
    measured one by up to the match tolerance (250 kHz digital,
    1 MHz analog). -/
theorem c4_enrichment_geometry (digital : Bool) (t : DvTimings) :
    (adv7604_fill_optional_dv_timings_fields digital t).width = t.width ∧
    (adv7604_fill_optional_dv_timings_fields digital t).height = t.height ∧
    (adv7604_fill_optional_dv_timings_fields digital t).interlaced = t.interlaced ∧
    (adv7604_fill_optional_dv_timings_fields digital t).polarities = t.polarities ∧
    (adv7604_fill_optional_dv_timings_fields digital t).hfrontporch = t.hfrontporch ∧
    (adv7604_fill_optional_dv_timings_fields digital t).hsync = t.hsync ∧
    (adv7604_fill_optional_dv_timings_fields digital t).hbackporch = t.hbackporch ∧
    (adv7604_fill_optional_dv_timings_fields digital t).vfrontporch = t.vfrontporch ∧
    (adv7604_fill_optional_dv_timings_fields digital t).vsync = t.vsync ∧
    (adv7604_fill_optional_dv_timings_fields digital t).vbackporch = t.vbackporch ∧
    t.pixelclock ≤ (adv7604_fill_optional_dv_timings_fields digital t).pixelclock +
      (if digital then 250000 else 1000000) ∧
    (adv7604_fill_optional_dv_timings_fields digital t).pixelclock ≤
      t.pixelclock + (if digital then 250000 else 1000000) := by
  unfold adv7604_fill_optional_dv_timings_fields
  cases hfind : adv7604_timings.find?
      (fun e => v4l_match_dv_timings t e (if digital then 250000 else 1000000)) with
  | none =>
    simp
  | some e =>
    have hm : dvMatch t e (if digital then 250000 else 1000000) := by
      have hp := List.find?_some hfind
      simp only [v4l_match_dv_timings, decide_eq_true_eq] at hp
      exact hp
    obtain ⟨h1, h2, h3, h4, h5, h6, h7, h8, h9, h10, h11, h12⟩ := hm
    simp only []
    exact ⟨h1.symm, h2.symm, h3.symm, h4.symm, h5.symm, h6.symm, h7.symm,
      h8.symm, h9.symm, h10.symm, h12, Nat.sub_le_iff_le_add.mp h11⟩

/-- C4 counterexample: a measured digital timing with the exact 480p
    geometry but a pixel clock of 27.1 MHz is matched by the 480p table
    entry (within the 250 kHz tolerance) and the enrichment replaces its
    pixel clock with the nominal 27 MHz — the measured pixel clock is
    changed. -/
theorem c4_enrichment_counterexample :
    (adv7604_fill_optional_dv_timings_fields true
      { mkDv 720 480 0 27000000 16 62 60 9 6 30 stdCea861 flCanReduceFps with
        pixelclock := 27100000 }).pixelclock = 27000000 ∧
    (27100000 : Nat) ≠ 27000000 := by decide

/-- C5: the pixel-clock ceiling is 170 MHz on the analog inputs and
    225 MHz on the digital (HDMI) input. s_dv_timings fails with -ERANGE
    exactly when the timing exceeds the applicable limit, and -ERANGE is
    distinct from the no-link error; query_dv_timings, whenever its
    resolution stage produces a timing and the signal check still
    passes, fails with -ERANGE exactly on a limit violation and
    otherwise returns the resolved timing. -/
theorem c5_pixelclock_limits :
    ((-ERANGE : Int) ≠ -ENOLINK) ∧
    (∀ (st : AdvState) (t : DvTimings),
      (adv7604_s_dv_timings st t).1 = -ERANGE ↔
        ((¬st.mode = 2 ∧ t.pixelclock > 170000000) ∨
         (st.mode = 2 ∧ t.pixelclock > 225000000))) ∧
    (∀ (chip : AdvChip) (st : AdvState) (env : QueryEnv) (t : DvTimings)
        (rst : Bool),
      queryResolve chip st env = .ok (t, rst) → env.noSignal2 = false →
      (((¬st.mode = 2 ∧ t.pixelclock > 170000000) ∨
        (st.mode = 2 ∧ t.pixelclock > 225000000)) →
        (adv7604_query_dv_timings chip st env).result = .error (-ERANGE)) ∧
      (¬((¬st.mode = 2 ∧ t.pixelclock > 170000000) ∨
         (st.mode = 2 ∧ t.pixelclock > 225000000)) →
        (adv7604_query_dv_timings chip st env).result = .ok t)) := by
  refine ⟨by decide, ?_, ?_⟩
  · intro st t
    by_cases hc : (¬st.mode = 2 ∧ t.pixelclock > 170000000) ∨
        (st.mode = 2 ∧ t.pixelclock > 225000000)
    · simp [adv7604_s_dv_timings, hc]
    · simp [adv7604_s_dv_timings, hc]
      decide
  · intro chip st env t rst hres hns
    constructor
    · intro hc
      simp [adv7604_query_dv_timings, hres, hns, hc]
    · intro hc
      simp [adv7604_query_dv_timings, hres, hns, hc]

/-- Concrete HDMI register readbacks for witnesses: a 100x80 geometry
    no table entry matches, with HDMI pixel-clock register 0x06 reading
    230 (230 MHz on the ADV7604). -/
def hdmiRegsW : HdmiRegs :=
  { r07 := 100, r09 := 80, r0b := 0, pa := 230, pb := 0, r20 := 10,
    r22 := 10, r24 := 10, r2a := 10, r2c := 10, r2e := 10, r30 := 10,
    r32 := 10, r34 := 10, r05 := 0 }

/-- Concrete STDI sample for witnesses: valid (lcf 300, bl 1000) but
    matching no table entry (no entry has 301 total lines). -/
def stdiW : StdiReadback :=
  { bl := 1000, lcf := 300, lcvs := 10, hs_pol := '-', vs_pol := '-',
    interlaced := false }

/-- Concrete receiver state on the HDMI input. -/
def stateHdmiW : AdvState :=
  { mode := 2, restart_stdi_once := true, aspect_ratio := aspect169,
    timings := mkDv 0 0 0 0 0 0 0 0 0 0 0 0 }

/-- Concrete query environment on the HDMI input: signal present, STDI
    locked, CVT/GTF never succeed. -/
def envHdmiW : QueryEnv :=
  { noSignal1 := false, stdiRead := some stdiW, hdmi := hdmiRegsW,
    cvt := cvtNone, gtf := gtfNone, noSignal2 := false }

/-- C5 witness: on the digital input a resolved 230 MHz pixel clock
    exceeds the 225 MHz ceiling and query_dv_timings fails with
    -ERANGE. -/
theorem c5_pixelclock_limits_witness :
    (adv7604_query_dv_timings AdvChip.adv7604 stateHdmiW envHdmiW).result =
      .error (-ERANGE) := by
  have h := (c5_pixelclock_limits.2.2 AdvChip.adv7604 stateHdmiW envHdmiW
    (adv7604_fill_optional_dv_timings_fields true
      (hdmiBtTimings AdvChip.adv7604 hdmiRegsW false))
    stateHdmiW.restart_stdi_once rfl rfl).1
  apply h
  right
  exact ⟨rfl, by decide⟩

/-- C1 (amended): the STDI restart-once protocol. After initialization
    (probe arms the flag), the first query_dv_timings call whose analog
    resolution fails end-to-end (the table/CVT/GTF chain at lcvs,
    lcvs + 1 and lcvs - 1 all fail) issues exactly the one-shot/restart/
    continuous write sequence to CP register 0x86 once, clears the flag
    and returns the no-link error -ENOLINK; an immediately following
    failing call (flag now cleared) issues no restart writes and returns
    the format-not-supported error -ERANGE. The flag is re-armed only by
    an analog resolution that succeeds on the third (lcvs - 1) attempt —
    a success on the first or second attempt reaches found: through a
    goto that skips the re-arm and leaves the flag unchanged. -/
theorem c1_stdi_restart_protocol :
    adv7604_probe_restart_stdi_once = true ∧
    (∀ (chip : AdvChip) (st : AdvState) (env env' : QueryEnv)
        (stdi stdi' : StdiReadback),
      env.noSignal1 = false → env.stdiRead = some stdi →
      env'.noSignal1 = false → env'.stdiRead = some stdi' →
      ¬st.mode = 2 →
      stdi2dv_timings env.cvt env.gtf st.aspect_ratio stdi = none →
      stdi2dv_timings env.cvt env.gtf st.aspect_ratio (lcvsAdd stdi 1) = none →
      stdi2dv_timings env.cvt env.gtf st.aspect_ratio
        (lcvsAdd (lcvsAdd stdi 1) 65534) = none →
      stdi2dv_timings env'.cvt env'.gtf st.aspect_ratio stdi' = none →
      stdi2dv_timings env'.cvt env'.gtf st.aspect_ratio (lcvsAdd stdi' 1) = none →
      stdi2dv_timings env'.cvt env'.gtf st.aspect_ratio
        (lcvsAdd (lcvsAdd stdi' 1) 65534) = none →
      adv7604_query_dv_timings chip { st with restart_stdi_once := true } env =
        { result := .error (-ENOLINK), restart_stdi_once := false,
          cpWrites := restartSeq } ∧
      adv7604_query_dv_timings chip { st with restart_stdi_once := false } env' =
        { result := .error (-ERANGE), restart_stdi_once := false,
          cpWrites := [] }) ∧
    (∀ (chip : AdvChip) (st : AdvState) (env : QueryEnv)
        (stdi : StdiReadback) (t : DvTimings),
      env.noSignal1 = false → env.stdiRead = some stdi →
      ¬st.mode = 2 →
      stdi2dv_timings env.cvt env.gtf st.aspect_ratio stdi = none →
      stdi2dv_timings env.cvt env.gtf st.aspect_ratio (lcvsAdd stdi 1) = none →
      stdi2dv_timings env.cvt env.gtf st.aspect_ratio
        (lcvsAdd (lcvsAdd stdi 1) 65534) = some t →
      (adv7604_query_dv_timings chip st env).restart_stdi_once = true) ∧
    (∀ (chip : AdvChip) (st : AdvState) (env : QueryEnv)
        (stdi : StdiReadback) (t : DvTimings),
      env.noSignal1 = false → env.stdiRead = some stdi →
      ¬st.mode = 2 →
      stdi2dv_timings env.cvt env.gtf st.aspect_ratio stdi = some t →
      (adv7604_query_dv_timings chip st env).restart_stdi_once =
        st.restart_stdi_once) ∧
    (∀ (chip : AdvChip) (st : AdvState) (env : QueryEnv)
        (stdi : StdiReadback) (t : DvTimings),
      env.noSignal1 = false → env.stdiRead = some stdi →
      ¬st.mode = 2 →
      stdi2dv_timings env.cvt env.gtf st.aspect_ratio stdi = none →
      stdi2dv_timings env.cvt env.gtf st.aspect_ratio (lcvsAdd stdi 1) = some t →
      (adv7604_query_dv_timings chip st env).restart_stdi_once =
        st.restart_stdi_once) := by
  refine ⟨rfl, ?_, ?_, ?_, ?_⟩
  · intro chip st env env' stdi stdi' h1 h2 h1' h2' hm hfa hfb hfc hfa' hfb' hfc'
    constructor
    · simp [adv7604_query_dv_timings, queryResolve, h1, h2, hm, hfa, hfb, hfc]
    · simp [adv7604_query_dv_timings, queryResolve, h1', h2', hm, hfa', hfb',
        hfc']
  · intro chip st env stdi t h1 h2 hm hfa hfb hs
    simp only [adv7604_query_dv_timings, queryResolve, h1, h2, hm, hfa, hfb, hs]
    simp only [Bool.false_eq_true, if_false, if_neg hm]
    split
    · rfl
    · split
      · rfl
      · rfl
  · intro chip st env stdi t h1 h2 hm hs
    simp only [adv7604_query_dv_timings, queryResolve, h1, h2, hm, hs]
    simp only [Bool.false_eq_true, if_false, if_neg hm]
    split
    · rfl
    · split
      · rfl
      · rfl
  · intro chip st env stdi t h1 h2 hm hfa hs
    simp only [adv7604_query_dv_timings, queryResolve, h1, h2, hm, hfa, hs]
    simp only [Bool.false_eq_true, if_false, if_neg hm]
    split
    · rfl
    · split
      · rfl
      · rfl

/-- Concrete receiver state on the composite analog input with the
    restart flag armed. -/
def stateAnalogW : AdvState :=
  { mode := 0, restart_stdi_once := true, aspect_ratio := aspect169,
    timings := mkDv 0 0 0 0 0 0 0 0 0 0 0 0 }

/-- Concrete analog query environment whose resolution fails end-to-end
    (stdiW matches no table entry and the CVT/GTF detectors fail). -/
def envAnalogW : QueryEnv :=
  { noSignal1 := false, stdiRead := some stdiW, hdmi := hdmiRegsW,
    cvt := cvtNone, gtf := gtfNone, noSignal2 := false }

/-- C1 witness: with the flag armed the failing call issues the single
    restart sequence and reports no-link; with the flag cleared the same
    failing call issues nothing and reports format-not-supported. -/
theorem c1_stdi_restart_protocol_witness :
    adv7604_query_dv_timings AdvChip.adv7604
        { stateAnalogW with restart_stdi_once := true } envAnalogW =
      { result := .error (-ENOLINK), restart_stdi_once := false,
        cpWrites := restartSeq } ∧
    adv7604_query_dv_timings AdvChip.adv7604
        { stateAnalogW with restart_stdi_once := false } envAnalogW =
      { result := .error (-ERANGE), restart_stdi_once := false,
        cpWrites := [] } :=
  c1_stdi_restart_protocol.2.1 AdvChip.adv7604 stateAnalogW envAnalogW
    envAnalogW stdiW stdiW rfl rfl rfl rfl (by decide) (by decide) (by decide)
    (by decide) (by decide) (by decide) (by decide)

/-- Concrete analog query environment whose resolution succeeds on the
    first stdi2dv_timings attempt: the STDI sample is the synthetic
    sample of the first table entry (720x480p59.94). -/
def envAnalogSuccessW : QueryEnv :=
  { noSignal1 := false,
    stdiRead := some (synthStdi
      (mkDv 720 480 0 27000000 16 62 60 9 6 30 stdCea861 flCanReduceFps)),
    hdmi := hdmiRegsW, cvt := cvtNone, gtf := gtfNone, noSignal2 := false }

/-- C1 counterexample: with the restart flag cleared (the state after a
    restart/format-not-supported failure pair), an analog resolution
    that succeeds on the first attempt returns the resolved timing but
    leaves the flag cleared — it does not re-arm the single restart as
    the claim states — and the immediately following end-to-end-failing
    call therefore issues no restart sequence and returns the
    format-not-supported error instead of the claimed no-link-plus-
    one-restart behaviour. -/
theorem c1_rearm_counterexample :
    (adv7604_query_dv_timings AdvChip.adv7604
        { stateAnalogW with restart_stdi_once := false }
        envAnalogSuccessW).result =
      .ok (mkDv 720 480 0 27000000 16 62 60 9 6 30 stdCea861 flCanReduceFps) ∧
    (adv7604_query_dv_timings AdvChip.adv7604
        { stateAnalogW with restart_stdi_once := false }
        envAnalogSuccessW).restart_stdi_once = false ∧
    (adv7604_query_dv_timings AdvChip.adv7604
        { stateAnalogW with restart_stdi_once := false } envAnalogW).result =
      .error (-ERANGE) ∧
    (adv7604_query_dv_timings AdvChip.adv7604
        { stateAnalogW with restart_stdi_once := false } envAnalogW).cpWrites =
      [] :=
  ⟨rfl, by decide, rfl, by decide⟩

/-- Concrete get_edid request for the witness: start at block 1 of the
    two stored blocks, ask for 5 blocks (to be clamped to 1). -/
def reqW : EdidRequest :=
  { pad := 0, start_block := 1, blocks := 5, buf := some fun _ => 0 }

/-- C9 witness: the clamped read of the second stored block succeeds,
    and a read on a nonzero pad fails with -EINVAL. -/
theorem c9_get_edid_contract_witness :
    (adv7604_get_edid edidStateW reqW).1 = 0 ∧
    (adv7604_get_edid edidStateW
      { pad := 1, start_block := 0, blocks := 1, buf := none }).1 = -EINVAL := by
  constructor
  · have h := (c9_get_edid_contract edidStateW reqW).2 (fun _ => 0) rfl
      (by decide) (by decide) rfl
    rw [h]
  · exact (c9_get_edid_contract edidStateW
      { pad := 1, start_block := 0, blocks := 1, buf := none }).1
      (Or.inl (by decide))
